import Mathlib

/-!
Shallow embedding of `src/src/assets/js/joystickAnalogControls.js`
(class `JoystickAnalog`), the geometry-and-state core of the analog
joystick widget.  Coordinates are modelled over `ℝ`; `Math.atan2`,
`Math.cos`, `Math.sin`, `Math.sqrt` become their exact real
counterparts.  A CSS style value assigned to `handle.style.left` /
`handle.style.top` is either the string literal with a percentage
(`'50%'`, the track center) or a pixel coordinate, modelled by
`StylePos`.  Owner-supplied callbacks (`pressKeyFunction`,
`releaseKeysFunction` and the four hooks) are opaque; the state keeps
only whether each was supplied (truthiness of the option), and every
externally observable effect of a method is recorded in an ordered
`List Effect` that the method returns alongside the updated state.
-/

/-- The four direction keys with which `pressKey` is ever called
(`'up'`, `'down'`, `'left'`, `'right'` in the source). -/
inductive Key where
  | up
  | down
  | left
  | right
deriving DecidableEq

/-- The `key` field of the synthesized keyboard event in the built-in
fallback of `pressKey` (`'ArrowUp'` etc.). -/
inductive KeyName where
  | arrowUp
  | arrowDown
  | arrowLeft
  | arrowRight
deriving DecidableEq

/-- Externally observable effects of the joystick methods, in the order
they are performed. `dispatchKeyup` never occurs in any emitted list:
it exists so that the absence of a synthesized key-up can be stated. -/
inductive Effect where
  | debugPress (k : Key)
  | debugRelease
  | callBeforePress (k : Key)
  | callPressFunction (k : Key)
  | dispatchKeydown (n : KeyName) (c : ℕ)
  | dispatchKeyup (n : KeyName) (c : ℕ)
  | callAfterPress (k : Key)
  | callBeforeRelease
  | callReleaseFunction
  | callAfterRelease
  | preventDefault
  | setCursorMove
deriving DecidableEq

/-- Value of `handle.style.left` / `handle.style.top`: either the
string `'50%'` (written on release, meaning the track center) or an
explicit pixel coordinate `v + 'px'`. -/
inductive StylePos where
  | pct50
  | px (v : ℝ)

/-- The pixel coordinate a style value denotes, inside a track of the
given radius: `'50%'` of the track width `2 * radius` is `radius`. -/
def StylePos.coord (radius : ℝ) : StylePos → ℝ
  | StylePos.pct50 => radius
  | StylePos.px v => v

/-- State of one `JoystickAnalog` instance: the geometry fields, the
drag flag, the handle style position, and which of the optional
callbacks were supplied at construction (their truthiness). -/
structure JoystickAnalog where
  joystickRadius : ℝ
  dragging : Bool
  handleLeft : StylePos
  handleTop : StylePos
  pressKeyFunction : Bool
  releaseKeysFunction : Bool
  beforePressKey : Bool
  afterPressKey : Bool
  beforeReleaseKeys : Bool
  afterReleaseKeys : Bool
  enableDebug : Bool
  initialHandlePosition : ℝ × ℝ

/-- The `(eventKeyPress, eventKeyCode)` pair chosen by the `switch` in
`pressKey` (source lines 273-292). -/
def keyDownEvent : Key → KeyName × ℕ
  | Key.up => (KeyName.arrowUp, 38)
  | Key.down => (KeyName.arrowDown, 40)
  | Key.left => (KeyName.arrowLeft, 37)
  | Key.right => (KeyName.arrowRight, 39)

/-- Effect list of `pressKey` (source lines 257-303): debug log when
enabled, the `beforePressKey` hook when supplied, then the custom
`pressKeyFunction` when supplied and otherwise the built-in keydown
dispatch, then the `afterPressKey` hook when supplied. -/
def pressActs (s : JoystickAnalog) (k : Key) : List Effect :=
  (if s.enableDebug then [Effect.debugPress k] else [])
    ++ (if s.beforePressKey then [Effect.callBeforePress k] else [])
    ++ (if s.pressKeyFunction then [Effect.callPressFunction k]
        else [Effect.dispatchKeydown (keyDownEvent k).1 (keyDownEvent k).2])
    ++ (if s.afterPressKey then [Effect.callAfterPress k] else [])

/-- `pressKey` (source lines 257-303): performs `pressActs` and never
assigns to any instance field. -/
def pressKey (s : JoystickAnalog) (k : Key) : JoystickAnalog × List Effect :=
  (s, pressActs s k)

/-- Effect list of `releaseKeys` (source lines 308-324): debug log when
enabled, the `beforeReleaseKeys` hook, the custom
`releaseKeysFunction` when supplied (no built-in fallback), the
`afterReleaseKeys` hook. -/
def releaseActs (s : JoystickAnalog) : List Effect :=
  (if s.enableDebug then [Effect.debugRelease] else [])
    ++ (if s.beforeReleaseKeys then [Effect.callBeforeRelease] else [])
    ++ (if s.releaseKeysFunction then [Effect.callReleaseFunction] else [])
    ++ (if s.afterReleaseKeys then [Effect.callAfterRelease] else [])

/-- `releaseKeys` (source lines 308-324): performs `releaseActs` and
never assigns to any instance field. -/
def releaseKeys (s : JoystickAnalog) : JoystickAnalog × List Effect :=
  (s, releaseActs s)

/-- `Math.atan2 y x`, modelled exactly as the argument of the complex
number `x + y i` (both have range `(-π, π]` and send `(0, 0)` to `0`). -/
noncomputable def atan2 (y x : ℝ) : ℝ :=
  Complex.arg ⟨x, y⟩

/-- `simulateKeypress` (source lines 234-251): the threshold tests and
the first-match-wins `if`/`else if` chain. -/
noncomputable def simulateKeypress (s : JoystickAnalog)
    (directionX directionY : ℝ) : JoystickAnalog × List Effect :=
  if directionY < -0.2 then pressKey s Key.up
  else if directionY > 0.2 then pressKey s Key.down
  else if directionX < -0.2 then pressKey s Key.left
  else if directionX > 0.2 then pressKey s Key.right
  else releaseKeys s

/-- The style-update half of `handlePosition` (source lines 190-203):
distance and angle of the raw point from the track center
`(radius, radius)`; inside the track the handle is placed at the raw
point, outside it is projected onto the boundary circle. -/
noncomputable def updateHandle (s : JoystickAnalog) (x y : ℝ) : JoystickAnalog :=
  let distance := Real.sqrt ((x - s.joystickRadius) ^ 2 + (y - s.joystickRadius) ^ 2)
  let angle := atan2 (y - s.joystickRadius) (x - s.joystickRadius)
  if distance ≤ s.joystickRadius then
    { s with handleLeft := StylePos.px x, handleTop := StylePos.px y }
  else
    { s with
      handleLeft := StylePos.px (Real.cos angle * s.joystickRadius + s.joystickRadius),
      handleTop := StylePos.px (Real.sin angle * s.joystickRadius + s.joystickRadius) }

/-- `handlePosition` (source lines 190-209): updates the handle style,
then normalizes the unclamped displacement by the radius (source lines
205-206) and feeds it to `simulateKeypress`. -/
noncomputable def handlePosition (s : JoystickAnalog) (x y : ℝ) :
    JoystickAnalog × List Effect :=
  simulateKeypress (updateHandle s x y)
    ((x - s.joystickRadius) / s.joystickRadius)
    ((y - s.joystickRadius) / s.joystickRadius)

/-- `handleMouseDown` (source lines 123-125): only sets `dragging`. -/
def handleMouseDown (s : JoystickAnalog) : JoystickAnalog × List Effect :=
  ({ s with dragging := true }, [])

/-- `handleTouchStart` (source lines 131-134): sets `dragging` and
calls `e.preventDefault()`. -/
def handleTouchStart (s : JoystickAnalog) : JoystickAnalog × List Effect :=
  ({ s with dragging := true }, [Effect.preventDefault])

/-- `handleMouseUp` (source lines 139-144): clears `dragging`, writes
`'50%'` to both style coordinates, then calls `releaseKeys`. -/
def handleMouseUp (s : JoystickAnalog) : JoystickAnalog × List Effect :=
  releaseKeys { s with
    dragging := false, handleLeft := StylePos.pct50, handleTop := StylePos.pct50 }

/-- `handleTouchEnd` (source lines 149-154): identical body to
`handleMouseUp`. -/
def handleTouchEnd (s : JoystickAnalog) : JoystickAnalog × List Effect :=
  releaseKeys { s with
    dragging := false, handleLeft := StylePos.pct50, handleTop := StylePos.pct50 }

/-- `handleMouseMove` (source lines 160-168): while dragging, forwards
the event coordinates relative to the track's top-left corner to
`handlePosition`; otherwise does nothing. -/
noncomputable def handleMouseMove (s : JoystickAnalog) (x y : ℝ) :
    JoystickAnalog × List Effect :=
  if s.dragging then handlePosition s x y else (s, [])

/-- `handleTouchMove` (source lines 174-183): like `handleMouseMove`
but additionally calls `e.preventDefault()` after `handlePosition`. -/
noncomputable def handleTouchMove (s : JoystickAnalog) (x y : ℝ) :
    JoystickAnalog × List Effect :=
  if s.dragging then
    ((handlePosition s x y).1, (handlePosition s x y).2 ++ [Effect.preventDefault])
  else (s, [])

/-- `handleMouseEnter` (source lines 214-216): only sets the cursor
style, no core state change. -/
def handleMouseEnter (s : JoystickAnalog) : JoystickAnalog × List Effect :=
  (s, [Effect.setCursorMove])

/-- `handleMouseLeave` (source lines 221-227): when not dragging,
recenters the handle style and calls `releaseKeys`; while dragging it
does nothing. -/
def handleMouseLeave (s : JoystickAnalog) : JoystickAnalog × List Effect :=
  if s.dragging then (s, [])
  else releaseKeys { s with handleLeft := StylePos.pct50, handleTop := StylePos.pct50 }

/-- The pointer events the class listens to (source lines 110-117). -/
inductive Event where
  | mouseDown
  | touchStart
  | mouseUp
  | touchEnd
  | mouseMove (x y : ℝ)
  | touchMove (x y : ℝ)
  | mouseEnter
  | mouseLeave

/-- Dispatch of one event to its handler. -/
noncomputable def step (s : JoystickAnalog) : Event → JoystickAnalog × List Effect
  | Event.mouseDown => handleMouseDown s
  | Event.touchStart => handleTouchStart s
  | Event.mouseUp => handleMouseUp s
  | Event.touchEnd => handleTouchEnd s
  | Event.mouseMove x y => handleMouseMove s x y
  | Event.touchMove x y => handleTouchMove s x y
  | Event.mouseEnter => handleMouseEnter s
  | Event.mouseLeave => handleMouseLeave s

/-- Run a sequence of events, concatenating the emitted effects. -/
noncomputable def run (s : JoystickAnalog) : List Event → JoystickAnalog × List Effect
  | [] => (s, [])
  | e :: es => ((run (step s e).1 es).1, (step s e).2 ++ (run (step s e).1 es).2)

/-- Whether an action is a diagnostic console log. -/
def Effect.isDebug : Effect → Bool
  | Effect.debugPress _ => true
  | Effect.debugRelease => true
  | _ => false

/-- Magnitude of the handle's displacement from the track center is at
most the radius (the clamping invariant of spec section 3). -/
def centerOffsetBounded (s : JoystickAnalog) : Prop :=
  Real.sqrt ((s.handleLeft.coord s.joystickRadius - s.joystickRadius) ^ 2 +
      (s.handleTop.coord s.joystickRadius - s.joystickRadius) ^ 2) ≤ s.joystickRadius

/-- A concrete dragging instance with radius 100, no custom callbacks,
debug disabled; used by the concrete witnesses. -/
def mkState : JoystickAnalog :=
  { joystickRadius := 100
    dragging := true
    handleLeft := StylePos.pct50
    handleTop := StylePos.pct50
    pressKeyFunction := false
    releaseKeysFunction := false
    beforePressKey := false
    afterPressKey := false
    beforeReleaseKeys := false
    afterReleaseKeys := false
    enableDebug := false
    initialHandlePosition := (0, 0) }

/-- The same instance while not dragging, with all hooks supplied. -/
def mkIdle : JoystickAnalog :=
  { joystickRadius := 100
    dragging := false
    handleLeft := StylePos.pct50
    handleTop := StylePos.pct50
    pressKeyFunction := true
    releaseKeysFunction := true
    beforePressKey := true
    afterPressKey := true
    beforeReleaseKeys := true
    afterReleaseKeys := true
    enableDebug := false
    initialHandlePosition := (0, 0) }

/-- The state component returned by `simulateKeypress` equals its input
state: `pressKey` and `releaseKeys` assign to no instance field. -/
theorem simulateKeypress_fst (s : JoystickAnalog) (dx dy : ℝ) :
    (simulateKeypress s dx dy).1 = s := by
  unfold simulateKeypress
  split_ifs <;> rfl

/-- The state component returned by `handlePosition` is the state
produced by the style-update half. -/
theorem handlePosition_fst (s : JoystickAnalog) (x y : ℝ) :
    (handlePosition s x y).1 = updateHandle s x y :=
  simulateKeypress_fst (updateHandle s x y) _ _

/-- `updateHandle` only rewrites the two style fields. -/
theorem updateHandle_radius (s : JoystickAnalog) (x y : ℝ) :
    (updateHandle s x y).joystickRadius = s.joystickRadius := by
  unfold updateHandle
  dsimp only
  split_ifs <;> rfl

/-- `updateHandle` leaves the debug flag unchanged. -/
theorem updateHandle_enableDebug (s : JoystickAnalog) (x y : ℝ) :
    (updateHandle s x y).enableDebug = s.enableDebug := by
  unfold updateHandle
  dsimp only
  split_ifs <;> rfl

/-- Claim C2: for every normalized direction pair, `simulateKeypress`
emits exactly one signal, decided first-match-wins with strict
comparisons against 0.2: `directionY < -0.2` is up, else
`directionY > 0.2` is down, else `directionX < -0.2` is left, else
`directionX > 0.2` is right, else release; in particular
`directionY = -0.2` with neutral `directionX` releases, and
`directionX = 0.5, directionY = -0.5` presses up. -/
theorem simulateKeypress_priority :
    (∀ (s : JoystickAnalog) (dx dy : ℝ),
      (dy < -0.2 → simulateKeypress s dx dy = pressKey s Key.up)
      ∧ (¬ dy < -0.2 → dy > 0.2 → simulateKeypress s dx dy = pressKey s Key.down)
      ∧ (¬ dy < -0.2 → ¬ dy > 0.2 → dx < -0.2 →
          simulateKeypress s dx dy = pressKey s Key.left)
      ∧ (¬ dy < -0.2 → ¬ dy > 0.2 → ¬ dx < -0.2 → dx > 0.2 →
          simulateKeypress s dx dy = pressKey s Key.right)
      ∧ (¬ dy < -0.2 → ¬ dy > 0.2 → ¬ dx < -0.2 → ¬ dx > 0.2 →
          simulateKeypress s dx dy = releaseKeys s))
    ∧ (∀ s : JoystickAnalog, simulateKeypress s 0 (-0.2) = releaseKeys s)
    ∧ (∀ s : JoystickAnalog, simulateKeypress s 0.5 (-0.5) = pressKey s Key.up) := by
  refine ⟨fun s dx dy => ⟨?_, ?_, ?_, ?_, ?_⟩, fun s => ?_, fun s => ?_⟩
  · intro h1
    simp [simulateKeypress, h1]
  · intro h1 h2
    simp [simulateKeypress, h1, h2]
  · intro h1 h2 h3
    simp [simulateKeypress, h1, h2, h3]
  · intro h1 h2 h3 h4
    simp [simulateKeypress, h1, h2, h3, h4]
  · intro h1 h2 h3 h4
    simp [simulateKeypress, h1, h2, h3, h4]
  · norm_num [simulateKeypress]
  · norm_num [simulateKeypress]

/-- Concrete instance of claim C2 at `dx = 0.3`, `dy = -0.5`. -/
theorem simulateKeypress_priority_witness :
    simulateKeypress mkState 0.3 (-0.5) = pressKey mkState Key.up :=
  (simulateKeypress_priority.1 mkState 0.3 (-0.5)).1 (by norm_num)

/-- Claim C5: `handleMouseUp` and `handleTouchEnd` always clear
`dragging`, put the handle style at the exact track center, and emit
the release effects of the current configuration. -/
theorem pointerUp_resets_and_releases (s : JoystickAnalog) :
    (handleMouseUp s).1.dragging = false
    ∧ (handleMouseUp s).1.handleLeft.coord (handleMouseUp s).1.joystickRadius
        = s.joystickRadius
    ∧ (handleMouseUp s).1.handleTop.coord (handleMouseUp s).1.joystickRadius
        = s.joystickRadius
    ∧ (handleMouseUp s).2 = releaseActs s
    ∧ (handleTouchEnd s).1.dragging = false
    ∧ (handleTouchEnd s).1.handleLeft.coord (handleTouchEnd s).1.joystickRadius
        = s.joystickRadius
    ∧ (handleTouchEnd s).1.handleTop.coord (handleTouchEnd s).1.joystickRadius
        = s.joystickRadius
    ∧ (handleTouchEnd s).2 = releaseActs s :=
  ⟨rfl, rfl, rfl, rfl, rfl, rfl, rfl, rfl⟩

/-- Claim C6: `pressKey` performs, in order, the debug log when
enabled, the before-press hook when supplied, then the custom press
handler when supplied and otherwise the built-in keydown dispatch for
the direction's fixed key, then the after-press hook; it never
dispatches a keyup. `releaseKeys` performs the debug log, the
before-release hook, the custom release handler when supplied with no
built-in fallback, then the after-release hook. -/
theorem press_release_emission_order (s : JoystickAnalog) (k : Key) :
    (pressKey s k).2 =
      (if s.enableDebug then [Effect.debugPress k] else [])
        ++ (if s.beforePressKey then [Effect.callBeforePress k] else [])
        ++ (if s.pressKeyFunction then [Effect.callPressFunction k]
            else [Effect.dispatchKeydown (keyDownEvent k).1 (keyDownEvent k).2])
        ++ (if s.afterPressKey then [Effect.callAfterPress k] else [])
    ∧ (∀ n c, Effect.dispatchKeyup n c ∉ (pressKey s k).2)
    ∧ (releaseKeys s).2 =
      (if s.enableDebug then [Effect.debugRelease] else [])
        ++ (if s.beforeReleaseKeys then [Effect.callBeforeRelease] else [])
        ++ (if s.releaseKeysFunction then [Effect.callReleaseFunction] else [])
        ++ (if s.afterReleaseKeys then [Effect.callAfterRelease] else []) := by
  refine ⟨rfl, ?_, rfl⟩
  intro n c
  cases hd : s.enableDebug <;> cases hb : s.beforePressKey <;>
    cases hp : s.pressKeyFunction <;> cases ha : s.afterPressKey <;>
      simp [pressKey, pressActs, hd, hb, hp, ha]

/-- Concrete instance of claim C6: the default configuration pressing
up emits exactly the fallback keydown and never a keyup. -/
theorem press_release_emission_order_witness :
    Effect.dispatchKeyup KeyName.arrowUp 38 ∉ (pressKey mkState Key.up).2 :=
  (press_release_emission_order mkState Key.up).2.1 KeyName.arrowUp 38

/-- Claim C7: `handleMouseLeave` changes nothing and emits nothing
while dragging; when not dragging it recenters the handle style and
emits the release effects. -/
theorem mouseLeave_only_when_not_dragging (s : JoystickAnalog) :
    (s.dragging = true → handleMouseLeave s = (s, []))
    ∧ (s.dragging = false →
        (handleMouseLeave s).1.handleLeft.coord (handleMouseLeave s).1.joystickRadius
            = s.joystickRadius
        ∧ (handleMouseLeave s).1.handleTop.coord (handleMouseLeave s).1.joystickRadius
            = s.joystickRadius
        ∧ (handleMouseLeave s).1.dragging = s.dragging
        ∧ (handleMouseLeave s).2 = releaseActs s) := by
  constructor
  · intro h
    unfold handleMouseLeave
    rw [if_pos h]
  · intro h
    unfold handleMouseLeave
    rw [if_neg (by simp [h])]
    exact ⟨rfl, rfl, rfl, rfl⟩

/-- Concrete instance of claim C7: leave while dragging is a no-op,
leave while idle emits the release effects. -/
theorem mouseLeave_only_when_not_dragging_witness :
    handleMouseLeave mkState = (mkState, [])
    ∧ (handleMouseLeave mkIdle).2 = releaseActs mkIdle :=
  ⟨(mouseLeave_only_when_not_dragging mkState).1 rfl,
   ((mouseLeave_only_when_not_dragging mkIdle).2 rfl).2.2.2⟩

/-- Claim C8: while not dragging, `handleMouseMove` and
`handleTouchMove` change no state and emit nothing, for every raw
coordinate pair. -/
theorem move_noop_when_not_dragging (s : JoystickAnalog) (x y : ℝ)
    (h : s.dragging = false) :
    handleMouseMove s x y = (s, []) ∧ handleTouchMove s x y = (s, []) := by
  refine ⟨?_, ?_⟩
  · unfold handleMouseMove
    rw [if_neg (by simp [h])]
  · unfold handleTouchMove
    rw [if_neg (by simp [h])]

/-- Concrete instance of claim C8 on the idle state. -/
theorem move_noop_when_not_dragging_witness :
    mkIdle.dragging = false ∧ handleMouseMove mkIdle 5 7 = (mkIdle, []) :=
  ⟨rfl, (move_noop_when_not_dragging mkIdle 5 7 rfl).1⟩

/-- Claim C10: `pressKey` and `releaseKeys` leave the drag flag, the
handle style position and the radius unchanged; their entire effect is
the returned effect list. -/
theorem press_release_frame (s : JoystickAnalog) (k : Key) :
    (pressKey s k).1.dragging = s.dragging
    ∧ (pressKey s k).1.handleLeft = s.handleLeft
    ∧ (pressKey s k).1.handleTop = s.handleTop
    ∧ (pressKey s k).1.joystickRadius = s.joystickRadius
    ∧ (releaseKeys s).1.dragging = s.dragging
    ∧ (releaseKeys s).1.handleLeft = s.handleLeft
    ∧ (releaseKeys s).1.handleTop = s.handleTop
    ∧ (releaseKeys s).1.joystickRadius = s.joystickRadius :=
  ⟨rfl, rfl, rfl, rfl, rfl, rfl, rfl, rfl⟩

/-- Claim C1: while dragging, a raw point within `radius` of the track
center becomes the handle position verbatim, and a point farther away
is projected onto the boundary circle at the angle `atan2` gives for
the displacement. -/
theorem handlePosition_clamp_cases (s : JoystickAnalog) (x y : ℝ) :
    (Real.sqrt ((x - s.joystickRadius) ^ 2 + (y - s.joystickRadius) ^ 2)
        ≤ s.joystickRadius →
      (handlePosition s x y).1.handleLeft = StylePos.px x
      ∧ (handlePosition s x y).1.handleTop = StylePos.px y)
    ∧ (s.joystickRadius
        < Real.sqrt ((x - s.joystickRadius) ^ 2 + (y - s.joystickRadius) ^ 2) →
      (handlePosition s x y).1.handleLeft
        = StylePos.px (s.joystickRadius + s.joystickRadius
            * Real.cos (atan2 (y - s.joystickRadius) (x - s.joystickRadius)))
      ∧ (handlePosition s x y).1.handleTop
        = StylePos.px (s.joystickRadius + s.joystickRadius
            * Real.sin (atan2 (y - s.joystickRadius) (x - s.joystickRadius)))) := by
  rw [handlePosition_fst]
  unfold updateHandle
  dsimp only
  constructor
  · intro h
    rw [if_pos h]
    exact ⟨rfl, rfl⟩
  · intro h
    rw [if_neg (not_le.mpr h)]
    exact ⟨congrArg StylePos.px (by ring), congrArg StylePos.px (by ring)⟩

/-- Concrete instance of claim C1: radius 100, raw point `(300, 100)`
is outside the track and lands on the boundary angle. -/
theorem handlePosition_clamp_cases_witness :
    mkState.joystickRadius
      < Real.sqrt ((300 - mkState.joystickRadius) ^ 2
          + (100 - mkState.joystickRadius) ^ 2)
    ∧ (handlePosition mkState 300 100).1.handleLeft
        = StylePos.px (mkState.joystickRadius + mkState.joystickRadius
            * Real.cos (atan2 (100 - mkState.joystickRadius)
                (300 - mkState.joystickRadius))) := by
  have hr : mkState.joystickRadius = (100 : ℝ) := rfl
  have hdist : Real.sqrt ((300 - mkState.joystickRadius) ^ 2
      + (100 - mkState.joystickRadius) ^ 2) = 200 := by
    rw [hr, show ((300:ℝ) - 100) ^ 2 + (100 - 100) ^ 2 = 200 ^ 2 by norm_num]
    exact Real.sqrt_sq (by norm_num)
  have h : mkState.joystickRadius
      < Real.sqrt ((300 - mkState.joystickRadius) ^ 2
          + (100 - mkState.joystickRadius) ^ 2) := by
    rw [hdist, hr]
    norm_num
  exact ⟨h, ((handlePosition_clamp_cases mkState 300 100).2 h).1⟩

/-- Core of the clamping invariant: the style written by
`updateHandle` stays within the radius of the track center. -/
theorem updateHandle_bounded (s : JoystickAnalog) (x y : ℝ)
    (hr : 0 ≤ s.joystickRadius) : centerOffsetBounded (updateHandle s x y) := by
  unfold centerOffsetBounded updateHandle
  dsimp only
  split_ifs with h
  · simpa [StylePos.coord] using h
  · simp only [StylePos.coord]
    have ht := Real.sin_sq_add_cos_sq
      (atan2 (y - s.joystickRadius) (x - s.joystickRadius))
    have key : (Real.cos (atan2 (y - s.joystickRadius) (x - s.joystickRadius))
            * s.joystickRadius + s.joystickRadius - s.joystickRadius) ^ 2
        + (Real.sin (atan2 (y - s.joystickRadius) (x - s.joystickRadius))
            * s.joystickRadius + s.joystickRadius - s.joystickRadius) ^ 2
        = s.joystickRadius ^ 2 := by
      linear_combination (s.joystickRadius ^ 2) * ht
    rw [key, Real.sqrt_sq hr]

/-- A state whose handle style is the `'50%'` pair satisfies the
clamping invariant. -/
theorem center_bounded (s : JoystickAnalog) (hr : 0 ≤ s.joystickRadius)
    (hl : s.handleLeft = StylePos.pct50) (ht : s.handleTop = StylePos.pct50) :
    centerOffsetBounded s := by
  unfold centerOffsetBounded
  rw [hl, ht]
  simpa [StylePos.coord] using hr

/-- Claim C3: with a nonnegative radius, every raw coordinate pair
processed while dragging leaves the handle within the radius of the
track center, and every event handler preserves that invariant. -/
theorem centerOffset_bounded_invariant (s : JoystickAnalog)
    (hr : 0 ≤ s.joystickRadius) :
    (∀ x y, centerOffsetBounded (handlePosition s x y).1)
    ∧ (centerOffsetBounded s → ∀ e, centerOffsetBounded (step s e).1) := by
  constructor
  · intro x y
    rw [handlePosition_fst]
    exact updateHandle_bounded s x y hr
  · intro hb e
    cases e with
    | mouseDown => exact hb
    | touchStart => exact hb
    | mouseUp => exact center_bounded _ hr rfl rfl
    | touchEnd => exact center_bounded _ hr rfl rfl
    | mouseMove x y =>
        show centerOffsetBounded (handleMouseMove s x y).1
        unfold handleMouseMove
        split_ifs with h
        · rw [handlePosition_fst]
          exact updateHandle_bounded s x y hr
        · exact hb
    | touchMove x y =>
        show centerOffsetBounded (handleTouchMove s x y).1
        unfold handleTouchMove
        split_ifs with h
        · dsimp only
          rw [handlePosition_fst]
          exact updateHandle_bounded s x y hr
        · exact hb
    | mouseEnter => exact hb
    | mouseLeave =>
        show centerOffsetBounded (handleMouseLeave s).1
        unfold handleMouseLeave
        split_ifs with h
        · exact hb
        · exact center_bounded _ hr rfl rfl

/-- Concrete instance of claim C3 at radius 100 and a raw point far
outside the track. -/
theorem centerOffset_bounded_invariant_witness :
    (0:ℝ) ≤ mkState.joystickRadius
    ∧ centerOffsetBounded (handlePosition mkState 300 100).1 :=
  ⟨by norm_num [mkState],
   (centerOffset_bounded_invariant mkState (by norm_num [mkState])).1 300 100⟩

/-- Claim C4: the direction pair handed to `simulateKeypress` is the
unclamped displacement divided by the radius, not the clamped handle
position; concretely, with radius 100 and raw point `(300, 100)` the
handle clamps to `(200, 100)` while the direction ratio is 2 and the
emission is a right-press. -/
theorem direction_uses_unclamped_displacement :
    (∀ (s : JoystickAnalog) (x y : ℝ),
      handlePosition s x y
        = simulateKeypress (updateHandle s x y)
            ((x - s.joystickRadius) / s.joystickRadius)
            ((y - s.joystickRadius) / s.joystickRadius))
    ∧ (updateHandle mkState 300 100).handleLeft = StylePos.px 200
    ∧ (updateHandle mkState 300 100).handleTop = StylePos.px 100
    ∧ (300 - mkState.joystickRadius) / mkState.joystickRadius = 2
    ∧ (handlePosition mkState 300 100).2
        = (pressKey (updateHandle mkState 300 100) Key.right).2 := by
  have hr : mkState.joystickRadius = (100 : ℝ) := rfl
  have hdist : Real.sqrt ((300 - mkState.joystickRadius) ^ 2
      + (100 - mkState.joystickRadius) ^ 2) = 200 := by
    rw [hr, show ((300:ℝ) - 100) ^ 2 + (100 - 100) ^ 2 = 200 ^ 2 by norm_num]
    exact Real.sqrt_sq (by norm_num)
  have hang : atan2 (100 - mkState.joystickRadius) (300 - mkState.joystickRadius)
      = 0 := by
    rw [hr, show (100:ℝ) - 100 = 0 by norm_num, show (300:ℝ) - 100 = 200 by norm_num]
    unfold atan2
    rw [show (⟨200, 0⟩ : ℂ) = ((200:ℝ) : ℂ) from Complex.ext (by simp) (by simp)]
    exact Complex.arg_ofReal_of_nonneg (by norm_num)
  have hleft : (updateHandle mkState 300 100).handleLeft = StylePos.px 200 := by
    unfold updateHandle
    dsimp only
    rw [if_neg (by rw [hdist, hr]; norm_num)]
    rw [hang, Real.cos_zero, hr]
    exact congrArg StylePos.px (by norm_num)
  have htop : (updateHandle mkState 300 100).handleTop = StylePos.px 100 := by
    unfold updateHandle
    dsimp only
    rw [if_neg (by rw [hdist, hr]; norm_num)]
    rw [hang, Real.sin_zero, hr]
    exact congrArg StylePos.px (by norm_num)
  have hpress : handlePosition mkState 300 100
      = pressKey (updateHandle mkState 300 100) Key.right := by
    unfold handlePosition simulateKeypress
    rw [if_neg (by rw [hr]; norm_num), if_neg (by rw [hr]; norm_num),
      if_neg (by rw [hr]; norm_num), if_pos (by rw [hr]; norm_num)]
  exact ⟨fun s x y => rfl, hleft, htop, by rw [hr]; norm_num,
    congrArg Prod.snd hpress⟩

/-- `pressActs` contains no debug log when debugging is disabled. -/
theorem pressActs_noDebug (s : JoystickAnalog) (k : Key)
    (h : s.enableDebug = false) : (pressActs s k).any Effect.isDebug = false := by
  cases hb : s.beforePressKey <;> cases hp : s.pressKeyFunction <;>
    cases ha : s.afterPressKey <;>
      simp [pressActs, h, hb, hp, ha, Effect.isDebug]

/-- `releaseActs` contains no debug log when debugging is disabled. -/
theorem releaseActs_noDebug (s : JoystickAnalog)
    (h : s.enableDebug = false) : (releaseActs s).any Effect.isDebug = false := by
  cases hb : s.beforeReleaseKeys <;> cases hp : s.releaseKeysFunction <;>
    cases ha : s.afterReleaseKeys <;>
      simp [releaseActs, h, hb, hp, ha, Effect.isDebug]

/-- `simulateKeypress` emits no debug log when debugging is disabled. -/
theorem simulateKeypress_noDebug (s : JoystickAnalog) (dx dy : ℝ)
    (h : s.enableDebug = false) :
    (simulateKeypress s dx dy).2.any Effect.isDebug = false := by
  unfold simulateKeypress
  split_ifs <;>
    first
      | exact pressActs_noDebug s _ h
      | exact releaseActs_noDebug s h

/-- Every handler leaves the debug flag unchanged. -/
theorem step_enableDebug (s : JoystickAnalog) (e : Event) :
    (step s e).1.enableDebug = s.enableDebug := by
  cases e with
  | mouseDown => rfl
  | touchStart => rfl
  | mouseUp => rfl
  | touchEnd => rfl
  | mouseMove x y =>
      show (handleMouseMove s x y).1.enableDebug = s.enableDebug
      unfold handleMouseMove
      split_ifs with h
      · rw [handlePosition_fst]
        exact updateHandle_enableDebug s x y
      · rfl
  | touchMove x y =>
      show (handleTouchMove s x y).1.enableDebug = s.enableDebug
      unfold handleTouchMove
      split_ifs with h
      · dsimp only
        rw [handlePosition_fst]
        exact updateHandle_enableDebug s x y
      · rfl
  | mouseEnter => rfl
  | mouseLeave =>
      show (handleMouseLeave s).1.enableDebug = s.enableDebug
      unfold handleMouseLeave
      split_ifs with h <;> rfl

/-- No handler emits a debug log when debugging is disabled. -/
theorem step_noDebug (s : JoystickAnalog) (e : Event)
    (h : s.enableDebug = false) : (step s e).2.any Effect.isDebug = false := by
  cases e with
  | mouseDown => rfl
  | touchStart => rfl
  | mouseUp => exact releaseActs_noDebug _ h
  | touchEnd => exact releaseActs_noDebug _ h
  | mouseMove x y =>
      show (handleMouseMove s x y).2.any Effect.isDebug = false
      unfold handleMouseMove
      split_ifs with hd
      · unfold handlePosition
        exact simulateKeypress_noDebug _ _ _
          (by rw [updateHandle_enableDebug]; exact h)
      · rfl
  | touchMove x y =>
      show (handleTouchMove s x y).2.any Effect.isDebug = false
      unfold handleTouchMove
      split_ifs with hd
      · dsimp only
        rw [List.any_append]
        have h1 : (handlePosition s x y).2.any Effect.isDebug = false := by
          unfold handlePosition
          exact simulateKeypress_noDebug _ _ _
            (by rw [updateHandle_enableDebug]; exact h)
        simp [h1, Effect.isDebug]
      · rfl
  | mouseEnter => rfl
  | mouseLeave =>
      show (handleMouseLeave s).2.any Effect.isDebug = false
      unfold handleMouseLeave
      split_ifs with hd
      · rfl
      · exact releaseActs_noDebug _ h

/-- No event sequence produces a debug log when debugging is
disabled. -/
theorem run_noDebug (evs : List Event) :
    ∀ s : JoystickAnalog, s.enableDebug = false →
      (run s evs).2.any Effect.isDebug = false := by
  induction evs with
  | nil =>
      intro s h
      rfl
  | cons e es ih =>
      intro s h
      show ((step s e).2 ++ (run (step s e).1 es).2).any Effect.isDebug = false
      rw [List.any_append, step_noDebug s e h,
        ih (step s e).1 (by rw [step_enableDebug]; exact h)]
      rfl

/-- Claim C9: with `enableDebug = false`, no press or release emission
and no event sequence produces a diagnostic log; the emitted effects
are only the hook, handler, fallback and DOM actions. -/
theorem no_debug_output_when_disabled (s : JoystickAnalog)
    (h : s.enableDebug = false) :
    (∀ k, ((pressKey s k).2.any Effect.isDebug) = false)
    ∧ ((releaseKeys s).2.any Effect.isDebug) = false
    ∧ (∀ evs, ((run s evs).2.any Effect.isDebug) = false) :=
  ⟨fun k => pressActs_noDebug s k h, releaseActs_noDebug s h,
   fun evs => run_noDebug evs s h⟩

/-- Concrete instance of claim C9 on a release-then-press sequence. -/
theorem no_debug_output_when_disabled_witness :
    mkIdle.enableDebug = false
    ∧ ((run mkIdle [Event.mouseUp, Event.mouseDown]).2.any Effect.isDebug)
        = false :=
  ⟨rfl,
   (no_debug_output_when_disabled mkIdle rfl).2.2 [Event.mouseUp, Event.mouseDown]⟩
